import Mathlib

/-
Verification of the `@andrejewski/result` TypeScript library
(src/result.ts): a two-variant tagged union `Result<V, E>` with
variants `Ok` and `Err`, factory functions `ok`/`err`, discriminant
fields `type` / `isOk` / `isErr`, and the combinators
`match`, `andThen`, `orElse`, `map`, `mapErr`.

The development has three layers:
1. a pure shallow embedding of the variants and combinators
   (`Result`, `ok`, `err`, `Result.match'`, ...), faithful to the
   bodies of the class methods in src/result.ts;
2. an exception-aware layer (`Result.matchE`, ...) in which caller
   supplied functions may throw, modelling JS exceptions with
   `Except`, used for the totality / guard claims;
3. a small runtime-object model (`RuntimeObj`, `Heap`) of the
   JavaScript object semantics relevant to `Object.freeze` /
   `Object.seal` as used by `preventAbuse`, used for the
   immutability and shallow-freeze claims.
-/

/-- The two-variant tagged union from src/result.ts: `class Ok` holds
`value : V`, `class Err` holds `error : E`;
`type Result<V, E> = Ok<V, E> | Err<V, E>`. -/
inductive Result (V E : Type) where
  | Ok (value : V)
  | Err (error : E)
deriving DecidableEq, Repr

/-- Factory `ok(value)`: `return new Ok(value, constructorMarker)`.
The marker check always succeeds here (see `okWithMarker` below for the
marker-checked constructor itself). -/
def ok {V E : Type} (v : V) : Result V E := Result.Ok v

/-- Factory `err(error)`: `return new Err(error, constructorMarker)`. -/
def err {V E : Type} (e : E) : Result V E := Result.Err e

namespace Result

variable {V E A B T : Type}

/-- The `type` discriminant field: `'ok'` on `Ok`, `'err'` on `Err`. -/
def type : Result V E → String
  | .Ok _ => "ok"
  | .Err _ => "err"

/-- The `isOk` discriminant field: `true` on `Ok`, `false` on `Err`. -/
def isOk : Result V E → Bool
  | .Ok _ => true
  | .Err _ => false

/-- The `isErr` discriminant field: `false` on `Ok`, `true` on `Err`. -/
def isErr : Result V E → Bool
  | .Ok _ => false
  | .Err _ => true

/-- The `value` payload field, present only on the `Ok` variant. -/
def value? : Result V E → Option V
  | .Ok v => some v
  | .Err _ => none

/-- The `error` payload field, present only on the `Err` variant. -/
def error? : Result V E → Option E
  | .Ok _ => none
  | .Err e => some e

/-- The `match({ok, err})` method. `Ok.match` is `return ok(this.value)`
and `Err.match` is `return err(this.error)`; the record of two handlers
is passed as two arguments. The source lets the two handlers return a
union `A | B`; at run time the chosen handler's return value is passed
through unmodified, which we embed with a common return type. -/
def match' (r : Result V E) (okh : V → T) (errh : E → T) : T :=
  match r with
  | .Ok v => okh v
  | .Err e => errh e

/-- The `andThen(fn)` method. `Ok.andThen` is `return fn(this.value)`;
`Err.andThen` is `return this` (the receiver, holding the same error). -/
def andThen (r : Result V E) (fn : V → Result A E) : Result A E :=
  match r with
  | .Ok v => fn v
  | .Err e => .Err e

/-- The `orElse(fn)` method. `Ok.orElse` is `return this`;
`Err.orElse` is `return fn(this.error)`. -/
def orElse (r : Result V E) (fn : E → Result V B) : Result V B :=
  match r with
  | .Ok v => .Ok v
  | .Err e => fn e

/-- The `map(fn)` method. `Ok.map` is `return ok(fn(this.value))`;
`Err.map` is `return this`. -/
def map (r : Result V E) (fn : V → T) : Result T E :=
  match r with
  | .Ok v => ok (fn v)
  | .Err e => .Err e

/-- The `mapErr(fn)` method. `Ok.mapErr` is `return this`;
`Err.mapErr` is `return err(fn(this.error))`. -/
def mapErr (r : Result V E) (fn : E → T) : Result V T :=
  match r with
  | .Ok v => .Ok v
  | .Err e => err (fn e)

end Result

/- Layer 2: caller-supplied functions that may throw.  JS exceptions
are modelled with `Except X`; each method body below performs exactly
the calls the source performs, so a throw in a supplied function
propagates and nothing else can throw. -/

section ExceptLayer

variable {X V E A B T : Type}

/-- The `match` method when the supplied handlers may throw: the body
only calls the one chosen handler. -/
def Result.matchE (r : Result V E) (okh : V → Except X T)
    (errh : E → Except X T) : Except X T :=
  match r with
  | .Ok v => okh v
  | .Err e => errh e

/-- The `andThen` method when `fn` may throw: `Ok.andThen` calls `fn`,
`Err.andThen` returns the receiver without calling anything. -/
def Result.andThenE (r : Result V E) (fn : V → Except X (Result A E)) :
    Except X (Result A E) :=
  match r with
  | .Ok v => fn v
  | .Err e => .ok (.Err e)

/-- The `orElse` method when `fn` may throw. -/
def Result.orElseE (r : Result V E) (fn : E → Except X (Result V B)) :
    Except X (Result V B) :=
  match r with
  | .Ok v => .ok (.Ok v)
  | .Err e => fn e

/-- The `map` method when `fn` may throw: `Ok.map` evaluates
`fn(this.value)` and wraps the outcome with `ok`. -/
def Result.mapE (r : Result V E) (fn : V → Except X T) :
    Except X (Result T E) :=
  match r with
  | .Ok v =>
    match fn v with
    | .ok t => .ok (ok t)
    | .error ex => .error ex
  | .Err e => .ok (.Err e)

/-- The `mapErr` method when `fn` may throw. -/
def Result.mapErrE (r : Result V E) (fn : E → Except X T) :
    Except X (Result V T) :=
  match r with
  | .Ok v => .ok (.Ok v)
  | .Err e =>
    match fn e with
    | .ok t => .ok (err t)
    | .error ex => .error ex

end ExceptLayer

/- Layer 2b: the private-constructor capability marker.
`constructorMarker` is a plain object private to the module; the check
`marker !== constructorMarker` is JS reference inequality, which we
model by giving each candidate marker object a numeric identity, the
module's own marker being a distinguished identity. -/

/-- Object identity of a candidate `PrivateConstructorMarker`. -/
abbrev PrivateConstructorMarker : Type := Nat

/-- The module-private `constructorMarker` object, as its identity. -/
def constructorMarker : PrivateConstructorMarker := 0

/-- The guard message thrown by `assertPrivateConstructor`. -/
def guardMessage : String :=
  "This function can only be called by Result internals."

/-- The guard `assertPrivateConstructor(marker)`: throws unless the
presented marker is (reference-)identical to `constructorMarker`. -/
def assertPrivateConstructor (marker : PrivateConstructorMarker) :
    Except String Unit :=
  if marker ≠ (constructorMarker : Nat) then .error guardMessage
  else .ok ()

/-- The `Ok` class constructor: runs `assertPrivateConstructor(marker)`,
stores the value, then `preventAbuse(this)` (the freeze and seal are
modelled in the runtime-object layer). -/
def okWithMarker {V E : Type} (v : V) (marker : PrivateConstructorMarker) :
    Except String (Result V E) := do
  assertPrivateConstructor marker
  pure (.Ok v)

/-- The `Err` class constructor, marker-checked like `okWithMarker`. -/
def errWithMarker {V E : Type} (e : E) (marker : PrivateConstructorMarker) :
    Except String (Result V E) := do
  assertPrivateConstructor marker
  pure (.Err e)

/- Layer 3: runtime-object model of the JavaScript semantics relevant
to `preventAbuse` (`Object.freeze` then `Object.seal`).  A JS value is
a primitive or a reference (object identity) into a heap; an object is
a list of named fields plus the frozen and extensible flags that
`Object.freeze` manipulates.  Property assignment in non-strict mode
silently does nothing on a frozen property or when adding to a
non-extensible object. -/

/-- A JavaScript value: primitive or object reference. -/
inductive JSVal where
  | vstr (s : String)
  | vbool (b : Bool)
  | vnum (n : Int)
  | vref (id : Nat)
deriving DecidableEq, Repr

/-- A JavaScript object: named fields plus the freeze and
extensibility state manipulated by `Object.freeze` / `Object.seal`. -/
structure RuntimeObj where
  fields : List (String × JSVal)
  frozen : Bool
  extensible : Bool
deriving DecidableEq, Repr

/-- Property read `o[k]`. -/
def getProp (o : RuntimeObj) (k : String) : Option JSVal :=
  o.fields.lookup k

/-- Replace the value stored under key `k`, keeping field order. -/
def updateFields : List (String × JSVal) → String → JSVal →
    List (String × JSVal)
  | [], _, _ => []
  | (k', v') :: rest, k, v =>
    if k' = k then (k', v) :: rest else (k', v') :: updateFields rest k v

/-- Property assignment `o[k] = v` in non-strict mode: writing an
existing property of a frozen object is silently ignored, as is adding
a new property to a non-extensible object. -/
def setProp (o : RuntimeObj) (k : String) (v : JSVal) : RuntimeObj :=
  if (o.fields.lookup k).isSome then
    if o.frozen then o else { o with fields := updateFields o.fields k v }
  else
    if o.extensible then { o with fields := o.fields ++ [(k, v)] } else o

/-- `Object.freeze(o)`: all own properties become non-writable and the
object becomes non-extensible. -/
def freezeObj (o : RuntimeObj) : RuntimeObj :=
  { o with frozen := true, extensible := false }

/-- `Object.seal(o)`: the object becomes non-extensible. -/
def sealObj (o : RuntimeObj) : RuntimeObj :=
  { o with extensible := false }

/-- `preventAbuse(obj)`: `Object.freeze(obj); Object.seal(obj)`. -/
def preventAbuse (o : RuntimeObj) : RuntimeObj :=
  sealObj (freezeObj o)

/-- The object state built by the `Ok` constructor body: the three
discriminant fields and `value`, then `preventAbuse(this)`. -/
def mkOkObj (v : JSVal) : RuntimeObj :=
  preventAbuse
    { fields := [("type", .vstr "ok"), ("isOk", .vbool true),
                 ("isErr", .vbool false), ("value", v)],
      frozen := false, extensible := true }

/-- The object state built by the `Err` constructor body. -/
def mkErrObj (e : JSVal) : RuntimeObj :=
  preventAbuse
    { fields := [("type", .vstr "err"), ("isOk", .vbool false),
                 ("isErr", .vbool true), ("error", e)],
      frozen := false, extensible := true }

/-- A heap of allocated objects, keyed by reference identity. -/
abbrev Heap : Type := List (Nat × RuntimeObj)

/-- A reference identity not yet used in the heap. -/
def freshId (h : Heap) : Nat := (h.map Prod.fst).foldr max 0 + 1

/-- Heap-level `ok(v)`: allocate a fresh `Ok` instance whose `value`
field holds the caller's value `v` itself; `preventAbuse` runs on the
new instance only, so no other heap object is touched. -/
def allocOk (h : Heap) (v : JSVal) : Heap × Nat :=
  let i := freshId h
  ((i, mkOkObj v) :: h, i)

/-- Heap-level `err(e)`, like `allocOk`. -/
def allocErr (h : Heap) (e : JSVal) : Heap × Nat :=
  let i := freshId h
  ((i, mkErrObj e) :: h, i)

/-- Dereference an object identity in the heap. -/
def heapGet (h : Heap) (i : Nat) : Option RuntimeObj :=
  match h with
  | [] => none
  | (j, o) :: t => if j = i then some o else heapGet t i

/- Helper lemmas shared by the immutability and shallow-freeze
theorems. -/

/-- Assignment to an object that `preventAbuse` has processed (frozen
and non-extensible) is a no-op, whether the key names an existing
property or a new one. -/
theorem setProp_of_frozen_sealed (o : RuntimeObj) (h1 : o.frozen = true)
    (h2 : o.extensible = false) (k : String) (w : JSVal) :
    setProp o k w = o := by
  unfold setProp
  by_cases hk : (o.fields.lookup k).isSome
  · simp [hk, h1]
  · simp [hk, h2]

/-- Every member of a list of naturals is bounded by the fold of max. -/
theorem mem_le_foldr_max (l : List Nat) (x : Nat) (hx : x ∈ l) :
    x ≤ l.foldr max 0 := by
  induction l with
  | nil => cases hx
  | cons a t ih =>
    rcases List.mem_cons.mp hx with h | h
    · subst h; exact le_max_left _ _
    · exact le_trans (ih h) (le_max_right _ _)

/-- A dereferenceable identity occurs among the heap's keys. -/
theorem heapGet_mem_keys (h : Heap) (i : Nat) (o : RuntimeObj)
    (hg : heapGet h i = some o) : i ∈ h.map Prod.fst := by
  induction h with
  | nil => simp [heapGet] at hg
  | cons p t ih =>
    cases p with
    | mk j o' =>
      simp only [heapGet] at hg
      by_cases hj : j = i
      · simp [hj]
      · simp only [hj, if_false] at hg
        simp only [List.map_cons, List.mem_cons]
        exact Or.inr (ih hg)

/-- Allocating a fresh `Ok` or `Err` instance leaves every existing
heap object untouched. -/
theorem alloc_preserves_heap (h : Heap) (vid : Nat) (o : RuntimeObj)
    (v : JSVal) (hg : heapGet h vid = some o) :
    heapGet (allocOk h v).1 vid = some o ∧
    heapGet (allocErr h v).1 vid = some o := by
  have hne : freshId h ≠ vid := by
    intro he
    have hle := mem_le_foldr_max (h.map Prod.fst) vid (heapGet_mem_keys h vid o hg)
    simp only [freshId] at he
    omega
  constructor <;> simp [allocOk, allocErr, heapGet, hne, hg]

/- Theorems settling the claims. -/

/-- C1: for every value `v`, `ok(v)` is an Ok instance with
`type = "ok"`, `isOk = true`, `isErr = false` and stored payload `v`;
for every error `e`, `err(e)` is an Err instance with `type = "err"`,
`isOk = false`, `isErr = true` and stored payload `e`. -/
theorem ok_err_discriminant_fields {V E : Type} (v : V) (e : E) :
    (ok v : Result V E).type = "ok" ∧
    (ok v : Result V E).isOk = true ∧
    (ok v : Result V E).isErr = false ∧
    (ok v : Result V E).value? = some v ∧
    (err e : Result V E).type = "err" ∧
    (err e : Result V E).isOk = false ∧
    (err e : Result V E).isErr = true ∧
    (err e : Result V E).error? = some e :=
  ⟨rfl, rfl, rfl, rfl, rfl, rfl, rfl, rfl⟩

/-- C2: `match` invokes exactly one handler — the `ok` handler with the
stored value on an Ok receiver, the `err` handler with the stored error
on an Err receiver — returns that handler's return value unmodified,
and the outcome never depends on the non-invoked handler (which is
never called). -/
theorem match_invokes_exactly_one_handler {V E T : Type} (v : V) (e : E)
    (okh : V → T) (errh : E → T) :
    (ok v : Result V E).match' okh errh = okh v ∧
    (err e : Result V E).match' okh errh = errh e ∧
    (∀ errh' : E → T, (ok v : Result V E).match' okh errh' = okh v) ∧
    (∀ okh' : V → T, (err e : Result V E).match' okh' errh = errh e) :=
  ⟨rfl, rfl, fun _ => rfl, fun _ => rfl⟩

/-- C3: `ok(v).andThen(f)` is exactly the Result produced by `f(v)`;
`err(e).andThen(f)` is the receiver `err(e)` itself, and the outcome
never depends on `f` (which is never invoked). -/
theorem andThen_ok_bind_err_identity {V E A : Type} (v : V) (e : E)
    (f : V → Result A E) :
    (ok v : Result V E).andThen f = f v ∧
    (err e : Result V E).andThen f = err e ∧
    (∀ g : V → Result A E, (err e : Result V E).andThen g = err e) :=
  ⟨rfl, rfl, fun _ => rfl⟩

/-- C4: `err(e).orElse(f)` is exactly the Result produced by `f(e)`;
`ok(v).orElse(f)` is the receiver `ok(v)` itself, and the outcome never
depends on `f` (which is never invoked). -/
theorem orElse_err_bind_ok_identity {V E B : Type} (v : V) (e : E)
    (f : E → Result V B) :
    (err e : Result V E).orElse f = f e ∧
    (ok v : Result V E).orElse f = ok v ∧
    (∀ g : E → Result V B, (ok v : Result V E).orElse g = ok v) :=
  ⟨rfl, rfl, fun _ => rfl⟩

/-- C5: `ok(v).map(f)` is a freshly constructed `ok(f(v))` and
`err(e).map(f)` is the receiver with `f` never invoked; symmetrically
`err(e).mapErr(f)` is a freshly constructed `err(f(e))` and
`ok(v).mapErr(f)` is the receiver with `f` never invoked. -/
theorem map_mapErr_behavior {V E T U : Type} (v : V) (e : E)
    (f : V → T) (g : E → U) :
    (ok v : Result V E).map f = ok (f v) ∧
    (err e : Result V E).map f = err e ∧
    (∀ f' : V → T, (err e : Result V E).map f' = err e) ∧
    (err e : Result V E).mapErr g = err (g e) ∧
    (ok v : Result V E).mapErr g = ok v ∧
    (∀ g' : E → U, (ok v : Result V E).mapErr g' = ok v) :=
  ⟨rfl, rfl, fun _ => rfl, rfl, rfl, fun _ => rfl⟩

/-- C6: `andThen` satisfies the monad laws on the success channel:
left identity `ok(v).andThen(f) = f(v)`, right identity
`r.andThen(ok) = r`, and associativity
`r.andThen(f).andThen(g) = r.andThen(x => f(x).andThen(g))`. -/
theorem andThen_monad_laws {V A B E : Type} (v : V)
    (f : V → Result A E) (g : A → Result B E) (r : Result V E) :
    (ok v : Result V E).andThen f = f v ∧
    r.andThen ok = r ∧
    (r.andThen f).andThen g = r.andThen (fun x => (f x).andThen g) := by
  refine ⟨rfl, ?_, ?_⟩
  · cases r <;> rfl
  · cases r <;> rfl

/-- C7: every Result instance is immutable after construction:
assignment to any property of a constructed instance (existing fields
such as `value`, `error`, `type`, `isOk`, `isErr`, or any new field)
leaves its observed state unchanged, because the constructor ran
`preventAbuse` (freeze and seal); and no combinator mutates the
receiver — the identity branches return the receiver itself. -/
theorem result_instances_immutable {V E A B T U : Type}
    (v e : JSVal) (k : String) (w : JSVal) (v' : V) (e' : E)
    (fa : V → Result A E) (fo : E → Result V B)
    (fm : V → T) (fme : E → U) :
    setProp (mkOkObj v) k w = mkOkObj v ∧
    setProp (mkErrObj e) k w = mkErrObj e ∧
    (mkOkObj v).frozen = true ∧ (mkOkObj v).extensible = false ∧
    (mkErrObj e).frozen = true ∧ (mkErrObj e).extensible = false ∧
    (err e' : Result V E).andThen fa = err e' ∧
    (ok v' : Result V E).orElse fo = ok v' ∧
    (err e' : Result V E).map fm = err e' ∧
    (ok v' : Result V E).mapErr fme = ok v' :=
  ⟨setProp_of_frozen_sealed _ rfl rfl k w,
   setProp_of_frozen_sealed _ rfl rfl k w,
   rfl, rfl, rfl, rfl, rfl, rfl, rfl, rfl⟩

/-- C8: calling a variant constructor without presenting the
module-private capability marker raises the guard error immediately,
while the factories `ok` and `err`, which present the marker, always
succeed for every input. -/
theorem constructor_capability_guard {V E : Type}
    (marker : PrivateConstructorMarker) (hm : marker ≠ constructorMarker)
    (v : V) (e : E) :
    okWithMarker (V := V) (E := E) v marker = Except.error guardMessage ∧
    errWithMarker (V := V) (E := E) e marker = Except.error guardMessage ∧
    okWithMarker (V := V) (E := E) v constructorMarker = Except.ok (ok v) ∧
    errWithMarker (V := V) (E := E) e constructorMarker = Except.ok (err e) := by
  refine ⟨?_, ?_, ?_, ?_⟩ <;>
    simp [okWithMarker, errWithMarker, assertPrivateConstructor, hm,
      Bind.bind, Except.bind, ok, err, Pure.pure, Except.pure]

/-- Witness for `constructor_capability_guard` at the concrete foreign
marker `1` and payloads `7` and `8`. -/
theorem constructor_capability_guard_witness :
    (1 : PrivateConstructorMarker) ≠ constructorMarker ∧
    (okWithMarker (V := Nat) (E := Nat) 7 1 = Except.error guardMessage ∧
     errWithMarker (V := Nat) (E := Nat) 8 1 = Except.error guardMessage ∧
     okWithMarker (V := Nat) (E := Nat) 7 constructorMarker =
       Except.ok (ok 7) ∧
     errWithMarker (V := Nat) (E := Nat) 8 constructorMarker =
       Except.ok (err 8)) :=
  ⟨by decide, constructor_capability_guard 1 (by decide) 7 8⟩

/-- C9: every operation is total over both variants: given a receiver
and supplied functions that do not themselves throw, `match`,
`andThen`, `orElse`, `map` and `mapErr` each run to completion and
return without raising. -/
theorem operations_never_raise {X V E A B T U : Type} (r : Result V E)
    (okh : V → Except X T) (errh : E → Except X T)
    (fa : V → Except X (Result A E)) (fo : E → Except X (Result V B))
    (fm : V → Except X U) (fme : E → Except X U)
    (hok : ∀ x, ∃ t, okh x = .ok t) (herr : ∀ x, ∃ t, errh x = .ok t)
    (hfa : ∀ x, ∃ s, fa x = .ok s) (hfo : ∀ x, ∃ s, fo x = .ok s)
    (hfm : ∀ x, ∃ u, fm x = .ok u) (hfme : ∀ x, ∃ u, fme x = .ok u) :
    (∃ t, r.matchE okh errh = .ok t) ∧
    (∃ s, r.andThenE fa = .ok s) ∧
    (∃ s, r.orElseE fo = .ok s) ∧
    (∃ s, r.mapE fm = .ok s) ∧
    (∃ s, r.mapErrE fme = .ok s) := by
  cases r with
  | Ok v =>
    obtain ⟨t, ht⟩ := hok v
    obtain ⟨s, hs⟩ := hfa v
    obtain ⟨u, hu⟩ := hfm v
    exact ⟨⟨t, ht⟩, ⟨s, hs⟩, ⟨.Ok v, rfl⟩,
      ⟨ok u, by simp [Result.mapE, hu]⟩, ⟨.Ok v, rfl⟩⟩
  | Err e =>
    obtain ⟨t, ht⟩ := herr e
    obtain ⟨s, hs⟩ := hfo e
    obtain ⟨u, hu⟩ := hfme e
    exact ⟨⟨t, ht⟩, ⟨.Err e, rfl⟩, ⟨s, hs⟩, ⟨.Err e, rfl⟩,
      ⟨err u, by simp [Result.mapErrE, hu]⟩⟩

/-- Witness for `operations_never_raise` at the concrete receiver
`ok 1` with concrete non-throwing supplied functions. -/
theorem operations_never_raise_witness :
    (∃ t, Result.matchE (X := String) (ok 1 : Result Nat Nat)
      (fun x => Except.ok (x + 1)) (fun x => Except.ok x) = Except.ok t) ∧
    (∃ s, Result.andThenE (X := String) (ok 1 : Result Nat Nat)
      (fun x => Except.ok (ok (x + 1) : Result Nat Nat)) = Except.ok s) ∧
    (∃ s, Result.orElseE (X := String) (B := Nat) (ok 1 : Result Nat Nat)
      (fun x => Except.ok (err x : Result Nat Nat)) = Except.ok s) ∧
    (∃ s, Result.mapE (X := String) (ok 1 : Result Nat Nat)
      (fun x => Except.ok (x * 2)) = Except.ok s) ∧
    (∃ s, Result.mapErrE (X := String) (ok 1 : Result Nat Nat)
      (fun x => Except.ok (x * 2)) = Except.ok s) :=
  operations_never_raise (ok 1) _ _ _ _ _ _
    (fun x => ⟨x + 1, rfl⟩) (fun x => ⟨x, rfl⟩)
    (fun x => ⟨ok (x + 1), rfl⟩) (fun x => ⟨err x, rfl⟩)
    (fun x => ⟨x * 2, rfl⟩) (fun x => ⟨x * 2, rfl⟩)

/-- C10: the construction-time freeze is shallow: `ok(v).value` holds
the very reference `v` that was passed in, that same reference is what
`match`, `andThen` and `map` hand to the supplied function, and
constructing a Result leaves the payload object in the heap untouched
(in particular not frozen) — only the new instance itself is frozen;
symmetrically for `err(e).error`. -/
theorem freeze_is_shallow {V E A T : Type} (h : Heap) (vid : Nat)
    (o : RuntimeObj) (hg : heapGet h vid = some o)
    (v : V) (e : E) (okh : V → T) (errh : E → T)
    (fa : V → Result A E) (fm : V → T) :
    getProp (mkOkObj (.vref vid)) "value" = some (.vref vid) ∧
    getProp (mkErrObj (.vref vid)) "error" = some (.vref vid) ∧
    heapGet (allocOk h (.vref vid)).1 vid = some o ∧
    heapGet (allocErr h (.vref vid)).1 vid = some o ∧
    (mkOkObj (JSVal.vref vid)).frozen = true ∧
    (mkErrObj (JSVal.vref vid)).frozen = true ∧
    (ok v : Result V E).match' okh errh = okh v ∧
    (ok v : Result V E).andThen fa = fa v ∧
    (ok v : Result V E).map fm = ok (fm v) ∧
    (err e : Result V E).match' okh errh = errh e := by
  obtain ⟨h1, h2⟩ := alloc_preserves_heap h vid o (.vref vid) hg
  exact ⟨rfl, rfl, h1, h2, rfl, rfl, rfl, rfl, rfl, rfl⟩

/-- A concrete unfrozen payload object for the shallow-freeze witness. -/
def payloadObj : RuntimeObj :=
  { fields := [("n", .vnum 1)], frozen := false, extensible := true }

/-- Witness for `freeze_is_shallow` on the concrete heap holding
`payloadObj` at identity `3`. -/
theorem freeze_is_shallow_witness :
    getProp (mkOkObj (.vref 3)) "value" = some (.vref 3) ∧
    getProp (mkErrObj (.vref 3)) "error" = some (.vref 3) ∧
    heapGet (allocOk [(3, payloadObj)] (.vref 3)).1 3 = some payloadObj ∧
    heapGet (allocErr [(3, payloadObj)] (.vref 3)).1 3 = some payloadObj ∧
    (mkOkObj (JSVal.vref 3)).frozen = true ∧
    (mkErrObj (JSVal.vref 3)).frozen = true ∧
    (ok 5 : Result Nat Nat).match' (fun x => x) (fun x => x) = 5 ∧
    (ok 5 : Result Nat Nat).andThen (fun x => ok x) = ok 5 ∧
    (ok 5 : Result Nat Nat).map (fun x => x + 1) = ok 6 ∧
    (err 9 : Result Nat Nat).match' (fun x => x) (fun x => x) = 9 :=
  freeze_is_shallow [(3, payloadObj)] 3 payloadObj (by decide)
    5 9 (fun x => x) (fun x => x) (fun x => ok x) (fun x => x + 1)
